import Mathlib

/-!
Verification of the msi-ec Modern 15 (A11M) embedded-controller driver
(`src/msi-ec.c`) against its natural-language specification.

The EC register space is modelled as a total map from addresses to bytes
(`Regs`).  Transport failures are modelled by explicit oracles: each
algorithm takes boolean flags (or a function of the loop indices) that say
which transport calls fail; a failed call leaves the register space
unchanged, a failed write in particular has no effect on the target byte.

Machine bytes are `Nat` values; a `u8` store truncates with `% 256` and the
`data &= ~(1UL << index)` idiom on a `u8` is an AND with the 8-bit mask
`255 ^^^ (1 <<< index)`.

The hardware constants live in `constants.h`, which belongs to the
repository but is not under `src/`; where their concrete values matter they
are modelled from the spec (see the doc comments marked
"Modelled from the spec").
-/

/-- The EC register space: one byte-wide cell per 8-bit address. -/
def Regs := Nat → Nat

/-- A single register write: the byte at address `a` becomes `v`. -/
def updateReg (regs : Regs) (a v : Nat) : Regs :=
  fun x => if x = a then v else regs x

@[simp] theorem updateReg_same (regs : Regs) (a v : Nat) :
    updateReg regs a v a = v := by
  simp [updateReg]

theorem updateReg_other (regs : Regs) (a v x : Nat) (h : x ≠ a) :
    updateReg regs a v x = regs x := by
  simp [updateReg, h]

/-- `is_bit_set` from `src/msi-ec.c:70`: `(byte >> index) & 1UL`,
converted to bool (nonzero means true). -/
def is_bit_set (index byte : Nat) : Bool :=
  (byte >>> index) &&& 1 == 1

theorem is_bit_set_eq_testBit (index byte : Nat) :
    is_bit_set index byte = byte.testBit index := by
  rw [Bool.eq_iff_iff]
  simp [is_bit_set, Nat.testBit_to_div_mod, Nat.shiftRight_eq_div_pow,
    Nat.and_one_is_mod]

/-- The byte produced by the read-modify-write of `ec_write_bit`
(`src/msi-ec.c:54`): set or clear bit `index` of `data`; the result is
stored into a `u8`, hence the truncation mod 256. -/
def ec_write_bit_byte (data index : Nat) (set : Bool) : Nat :=
  (if set then data ||| (1 <<< index)
   else data &&& (255 ^^^ (1 <<< index))) % 256

theorem ec_write_bit_byte_lt (data index : Nat) (set : Bool) :
    ec_write_bit_byte data index set < 256 :=
  Nat.mod_lt _ (by decide)

theorem one_shiftLeft_eq (i : Nat) : (1 <<< i) = 2 ^ i := by
  simp [Nat.shiftLeft_eq]

theorem testBit_ec_write_bit_byte_self (data index : Nat) (set : Bool)
    (h : index < 8) :
    (ec_write_bit_byte data index set).testBit index = set := by
  unfold ec_write_bit_byte
  cases set
  · rw [if_neg Bool.false_ne_true, one_shiftLeft_eq,
      show (256 : Nat) = 2 ^ 8 from rfl, show (255 : Nat) = 2 ^ 8 - 1 from rfl,
      Nat.testBit_mod_two_pow]
    simp only [Nat.testBit_and, Nat.testBit_xor, Nat.testBit_two_pow_sub_one,
      Nat.testBit_two_pow]
    simp [h]
  · rw [if_pos rfl, one_shiftLeft_eq, show (256 : Nat) = 2 ^ 8 from rfl,
      Nat.testBit_mod_two_pow]
    simp only [Nat.testBit_or, Nat.testBit_two_pow]
    simp [h]

theorem le_two_pow_of_ge_eight {j : Nat} (h : 8 ≤ j) : (256 : Nat) ≤ 2 ^ j :=
  le_trans (by decide : (256 : Nat) ≤ 2 ^ 8)
    (Nat.pow_le_pow_right (by decide) h)

theorem testBit_ec_write_bit_byte_other (data index j : Nat) (set : Bool)
    (hidx : index < 8) (hdata : data < 256) (hj : j ≠ index) :
    (ec_write_bit_byte data index set).testBit j = data.testBit j := by
  by_cases hj8 : j < 8
  · unfold ec_write_bit_byte
    cases set
    · rw [if_neg Bool.false_ne_true, one_shiftLeft_eq,
        show (256 : Nat) = 2 ^ 8 from rfl,
        show (255 : Nat) = 2 ^ 8 - 1 from rfl, Nat.testBit_mod_two_pow]
      simp only [Nat.testBit_and, Nat.testBit_xor, Nat.testBit_two_pow_sub_one,
        Nat.testBit_two_pow]
      simp [hj8, (Ne.symm hj)]
    · rw [if_pos rfl, one_shiftLeft_eq, show (256 : Nat) = 2 ^ 8 from rfl,
        Nat.testBit_mod_two_pow]
      simp only [Nat.testBit_or, Nat.testBit_two_pow]
      simp [hj8, (Ne.symm hj)]
  · have h1 : data.testBit j = false :=
      Nat.testBit_lt_two_pow
        (lt_of_lt_of_le hdata (le_two_pow_of_ge_eight (by omega)))
    have h2 : (ec_write_bit_byte data index set).testBit j = false :=
      Nat.testBit_lt_two_pow
        (lt_of_lt_of_le (ec_write_bit_byte_lt data index set)
          (le_two_pow_of_ge_eight (by omega)))
    rw [h2, h1]

/-- `ec_write_bit` from `src/msi-ec.c:54`: read the byte at `addr`, set or
clear bit `index`, write it back.  `readOk`/`writeOk` are the outcomes of
the two transport calls; a failure of either leaves the register space
unchanged and the function returns the failure (`none`). -/
def ec_write_bit (regs : Regs) (addr index : Nat) (set : Bool)
    (readOk writeOk : Bool) : Option Regs :=
  if readOk then
    if writeOk then
      some (updateReg regs addr (ec_write_bit_byte (regs addr) index set))
    else none
  else none

/-- Reading one bit of a register: an `ec_read` followed by `is_bit_set`,
the pattern used by every `_show` handler in `src/msi-ec.c` (the spec's
`read_bit`), on a successful transport read. -/
def read_bit (regs : Regs) (addr index : Nat) : Bool :=
  is_bit_set index (regs addr)

/-- `streq` from `src/msi-ec.c:40`: sysfs input text equals the target
string either exactly or with a trailing newline. -/
def streq (x y : String) : Bool :=
  decide (x = y) || decide (x = y ++ "\n")

theorem streq_iff (x y : String) :
    streq x y = true ↔ (x = y ∨ x = y ++ "\n") := by
  simp [streq]

/-- Modelled from the spec: the fan-mode register address lives in
`constants.h`, which is part of this repository but not under `src/`.  The
spec (sections 3 and 4.3) only requires it to be a fixed register address
holding the three mutually exclusive fan-mode flag bits. -/
def MSI_EC_FAN_MODE_ADDRESS : Nat := 0xf4

/-- Modelled from the spec: the silent-flag bit index of the fan-mode byte
(`constants.h`, not under `src/`). The spec requires a fixed bit index,
distinct from the advanced and basic flag bits, within one byte. -/
def MSI_EC_FAN_MODE_SILENT_BIT : Nat := 4

/-- Modelled from the spec: the basic-flag bit index of the fan-mode byte
(`constants.h`, not under `src/`). -/
def MSI_EC_FAN_MODE_BASIC_BIT : Nat := 6

/-- Modelled from the spec: the advanced-flag bit index of the fan-mode
byte (`constants.h`, not under `src/`). -/
def MSI_EC_FAN_MODE_ADVANCED_BIT : Nat := 7

/-- The classification performed by `fan_mode_show` (`src/msi-ec.c:330`)
on a successfully read fan-mode byte `rdata`: silent beats advanced beats
basic, and "auto" when none of the three flag bits is set. -/
def fan_mode_show (rdata : Nat) : String :=
  if is_bit_set MSI_EC_FAN_MODE_SILENT_BIT rdata then "silent"
  else if is_bit_set MSI_EC_FAN_MODE_ADVANCED_BIT rdata then "advanced"
  else if is_bit_set MSI_EC_FAN_MODE_BASIC_BIT rdata then "basic"
  else "auto"

/-- `fan_mode_store` from `src/msi-ec.c:354`.  The input text is checked
against the four valid modes first (`-EINVAL`, modelled as `false`, with
the registers untouched otherwise); then three `ec_write_bit`
read-modify-writes run in order basic, advanced, silent.  `f1 f2 f3` are
the outcomes of the three read-modify-writes; a failing one leaves the
byte unchanged and aborts the remaining writes, returning the failure. -/
def fan_mode_store (regs : Regs) (buf : String) (f1 f2 f3 : Bool) :
    Bool × Regs :=
  let is_auto := streq buf "auto"
  let is_silent := streq buf "silent"
  let is_basic := streq buf "basic"
  let is_adv := streq buf "advanced"
  if !is_auto && !is_basic && !is_adv && !is_silent then (false, regs)
  else if f1 then (false, regs)
  else
    let regs1 := updateReg regs MSI_EC_FAN_MODE_ADDRESS
      (ec_write_bit_byte (regs MSI_EC_FAN_MODE_ADDRESS)
        MSI_EC_FAN_MODE_BASIC_BIT is_basic)
    if f2 then (false, regs1)
    else
      let regs2 := updateReg regs1 MSI_EC_FAN_MODE_ADDRESS
        (ec_write_bit_byte (regs1 MSI_EC_FAN_MODE_ADDRESS)
          MSI_EC_FAN_MODE_ADVANCED_BIT is_adv)
      if f3 then (false, regs2)
      else
        (true, updateReg regs2 MSI_EC_FAN_MODE_ADDRESS
          (ec_write_bit_byte (regs2 MSI_EC_FAN_MODE_ADDRESS)
            MSI_EC_FAN_MODE_SILENT_BIT is_silent))

/-- Modelled from the spec: the preset row indices (`constants.h`, not
under `src/`).  Section 6 of the spec lists the preset vocabulary in the
order super_battery, silent, balanced, high_performance; the rows of the
value table are indexed in that declared order. -/
def MSI_EC_PRESET_SUPER_BATTERY : Nat := 0

/-- Modelled from the spec: preset row index of the silent preset
(`constants.h`, not under `src/`). -/
def MSI_EC_PRESET_SILENT : Nat := 1

/-- Modelled from the spec: preset row index of the balanced preset
(`constants.h`, not under `src/`). -/
def MSI_EC_PRESET_BALANCED : Nat := 2

/-- Modelled from the spec: preset row index of the high-performance
preset (`constants.h`, not under `src/`). -/
def MSI_EC_PRESET_HIGH_PERFORMANCE : Nat := 3

/-- The static preset data of `constants.h`: the column address vector
`MSI_EC_PRESET_MEMORY_TABLE` (`mem`), the per-preset value rows
`MSI_EC_PRESET_VALUE_TABLE` (`val`), and the two special column indices
`MSI_EC_PRESET_COLUMN_KBD_BL` (`kbdCol`) and
`MSI_EC_PRESET_COLUMN_SILENT_FLAG` (`silentCol`).  The algorithms below
are stated over an arbitrary table of this shape. -/
structure PresetTables where
  mem : List Nat
  val : List (List Nat)
  kbdCol : Nat
  silentCol : Nat

/-- Modelled from the spec: the concrete preset tables of `constants.h`
(part of this repository, not under `src/`).  Faithful to spec sections 3
and 4.3: every row covers the same ordered columns; one column is the
keyboard-backlight byte (ignored by classification), one column is the
derived fan-silent boolean stored at the fan-mode register; the remaining
columns are exact bytes, and rows of distinct presets differ in at least
one exactly-compared column. -/
def specTables : PresetTables :=
  { mem := [0xd2, 0xd3, 0xf4, 0xeb]
    val := [[0xc2, 0x80, 0, 0x00],
            [0xc1, 0x80, 1, 0x00],
            [0xc1, 0x80, 0, 0x00],
            [0xc4, 0x80, 0, 0x00]]
    kbdCol := 1
    silentCol := 2 }

/-- The inner column loop of `preset_show` (`src/msi-ec.c:401`), checking
preset row `v` from column `c` on: read the byte at the column's address
(`rf v c = true` models a failed `ec_read`, which breaks with
`match = FALSE`), skip the keyboard-backlight column, compare the
fan-silent column through `is_bit_set`, and every other column by byte
equality. -/
def matchAux (t : PresetTables) (regs : Regs) (rf : Nat → Nat → Bool)
    (v : Nat) : Nat → Nat → Bool
  | 0, _ => true
  | fuel + 1, c =>
    if c < t.mem.length then
      let addr := t.mem.getD c 0
      let value := (t.val.getD v []).getD c 0
      if rf v c then false
      else if c = t.kbdCol then matchAux t regs rf v fuel (c + 1)
      else if c = t.silentCol then
        if value == (if is_bit_set MSI_EC_FAN_MODE_SILENT_BIT (regs addr)
                     then 1 else 0)
        then matchAux t regs rf v fuel (c + 1)
        else false
      else if value == regs addr then matchAux t regs rf v fuel (c + 1)
      else false
    else true

def matchFrom (t : PresetTables) (regs : Regs) (rf : Nat → Nat → Bool)
    (v c : Nat) : Bool :=
  matchAux t regs rf v (t.mem.length - c) c

/-- One column comparison of the classification, written the way the spec
(section 4.3) words it: the keyboard-backlight column is ignored, the
fan-silent column compares the stored boolean with the silent bit of the
current byte, every other column is exact byte equality. -/
def colMatches (t : PresetTables) (regs : Regs) (v c : Nat) : Bool :=
  if c = t.kbdCol then true
  else if c = t.silentCol then
    (t.val.getD v []).getD c 0
      == (if is_bit_set MSI_EC_FAN_MODE_SILENT_BIT (regs (t.mem.getD c 0))
          then 1 else 0)
  else (t.val.getD v []).getD c 0 == regs (t.mem.getD c 0)

/-- Spec-worded whole-row match: every column of preset row `v` matches
the current register state. -/
def presetMatches (t : PresetTables) (regs : Regs) (v : Nat) : Bool :=
  (List.range t.mem.length).all fun c => colMatches t regs v c

/-- The name printed by the `switch` of `preset_show` (`src/msi-ec.c:432`)
for a matching row index. -/
def presetName (v : Nat) : String :=
  if v = MSI_EC_PRESET_SUPER_BATTERY then "super_battery"
  else if v = MSI_EC_PRESET_SILENT then "silent"
  else if v = MSI_EC_PRESET_BALANCED then "balanced"
  else if v = MSI_EC_PRESET_HIGH_PERFORMANCE then "high_performance"
  else "custom"

/-- The outer preset loop of `preset_show` (`src/msi-ec.c:399`) from row
`v` on: return the name of the first matching row (a matching row index
outside the `switch` cases falls through and continues the loop, like the
C `switch` without a `default`), or "custom" when no row matches. -/
def showAux (t : PresetTables) (regs : Regs) (rf : Nat → Nat → Bool) :
    Nat → Nat → String
  | 0, _ => "custom"
  | fuel + 1, v =>
    if v < t.val.length then
      if matchFrom t regs rf v 0 then
        if v = MSI_EC_PRESET_SUPER_BATTERY then "super_battery"
        else if v = MSI_EC_PRESET_SILENT then "silent"
        else if v = MSI_EC_PRESET_BALANCED then "balanced"
        else if v = MSI_EC_PRESET_HIGH_PERFORMANCE then "high_performance"
        else showAux t regs rf fuel (v + 1)
      else showAux t regs rf fuel (v + 1)
    else "custom"

def showFrom (t : PresetTables) (regs : Regs) (rf : Nat → Nat → Bool)
    (v : Nat) : String :=
  showAux t regs rf (t.val.length - v) v

/-- `preset_show` from `src/msi-ec.c:390`: classify the current register
state.  `rf v c` is the outcome of the `ec_read` for preset row `v` at
column `c` (`true` means the transport read failed). -/
def preset_show (t : PresetTables) (regs : Regs)
    (rf : Nat → Nat → Bool) : String :=
  showFrom t regs rf 0

/-- The name-to-row map at the top of `preset_store`
(`src/msi-ec.c:455`); `none` models the `-EINVAL` early return. -/
def preset_index (buf : String) : Option Nat :=
  if streq buf "super_battery" then some MSI_EC_PRESET_SUPER_BATTERY
  else if streq buf "silent" then some MSI_EC_PRESET_SILENT
  else if streq buf "balanced" then some MSI_EC_PRESET_BALANCED
  else if streq buf "high_performance" then some MSI_EC_PRESET_HIGH_PERFORMANCE
  else none

/-- One iteration of the write loop of `preset_store`
(`src/msi-ec.c:466`): write column `c` of preset row `idx`; the fan-silent
column goes through `ec_write_bit` with the table's derived boolean, every
other column is a raw `ec_write`.  `wf c = true` models a transport
failure of that column's write (logged by the C code and ignored), which
leaves the register space unchanged. -/
def writeColumn (t : PresetTables) (idx : Nat) (wf : Nat → Bool)
    (regs : Regs) (c : Nat) : Regs :=
  let addr := t.mem.getD c 0
  let value := (t.val.getD idx []).getD c 0
  if wf c then regs
  else if c = t.silentCol then
    updateReg regs addr
      (ec_write_bit_byte (regs addr) MSI_EC_FAN_MODE_SILENT_BIT (value != 0))
  else updateReg regs addr value

/-- The full column write loop of `preset_store` (`src/msi-ec.c:466`). -/
def storeColumns (t : PresetTables) (idx : Nat) (wf : Nat → Bool)
    (regs : Regs) : Regs :=
  (List.range t.mem.length).foldl (writeColumn t idx wf) regs

/-- `preset_store` from `src/msi-ec.c:448`: map the input text to a preset
row (returning the `-EINVAL` failure, modelled as `false`, before any
write when the text is unrecognized), write every column in table order
(individual write failures `wf` are logged and skipped), then — unless the
preset is the high-performance one — clear the advanced and basic fan-mode
flags with two `ec_write_bit` calls whose results are ignored
(`af`/`bf` are their failure outcomes). -/
def preset_store (t : PresetTables) (regs : Regs) (buf : String)
    (wf : Nat → Bool) (af bf : Bool) : Bool × Regs :=
  match preset_index buf with
  | none => (false, regs)
  | some idx =>
    let regs1 := storeColumns t idx wf regs
    if idx ≠ MSI_EC_PRESET_HIGH_PERFORMANCE then
      let regs2 :=
        if af then regs1
        else updateReg regs1 MSI_EC_FAN_MODE_ADDRESS
          (ec_write_bit_byte (regs1 MSI_EC_FAN_MODE_ADDRESS)
            MSI_EC_FAN_MODE_ADVANCED_BIT false)
      let regs3 :=
        if bf then regs2
        else updateReg regs2 MSI_EC_FAN_MODE_ADDRESS
          (ec_write_bit_byte (regs2 MSI_EC_FAN_MODE_ADDRESS)
            MSI_EC_FAN_MODE_BASIC_BIT false)
      (true, regs3)
    else (true, regs1)

/-- Modelled from the spec: the calibrated minimum raw fan-speed byte
(`MSI_EC_CPU_REALTIME_FAN_SPEED_BASE_MIN` of `constants.h`, part of this
repository but not under `src/`).  The spec (section 4.2) only requires a
fixed calibrated range with minimum strictly below maximum. -/
def MSI_EC_CPU_REALTIME_FAN_SPEED_BASE_MIN : Nat := 0x19

/-- Modelled from the spec: the calibrated maximum raw fan-speed byte
(`MSI_EC_CPU_REALTIME_FAN_SPEED_BASE_MAX` of `constants.h`, not under
`src/`). -/
def MSI_EC_CPU_REALTIME_FAN_SPEED_BASE_MAX : Nat := 0x37

/-- The decode performed by `cpu_realtime_fan_speed_show`
(`src/msi-ec.c:612`) on a successfully read raw byte `rdata`, with the
calibration bounds `mn`/`mx` as parameters: out-of-range bytes return
`-EINVAL` (modelled as `none`), in-range bytes are rescaled linearly with
C integer division. -/
def cpu_realtime_fan_speed_show (mn mx rdata : Nat) : Option Nat :=
  if rdata < mn ∨ mx < rdata then none
  else some (100 * (rdata - mn) / (mx - mn))

/-- Decimal value of an ASCII digit. -/
def digitVal (c : Char) : Nat := c.toNat - 48

/-- Consume up to `w` more ASCII digits, accumulating into `acc` — the
digit-conversion core of `sscanf`'s width-limited `%d`. -/
def scanDigits : Nat → Nat → List Char → Nat × List Char
  | 0, acc, s => (acc, s)
  | _ + 1, acc, [] => (acc, [])
  | w + 1, acc, c :: s =>
    if c.isDigit then scanDigits w (acc * 10 + digitVal c) s
    else (acc, c :: s)

/-- One `%0wd` conversion of `sscanf`: skip leading whitespace, then read
between one and `w` digits; no digit at all is a matching failure
(`none`), which makes `sscanf` stop and leave the remaining output
variables unassigned.  (The EC firmware fields are unsigned fixed-width
digit runs, so the optional sign of `%d` never fires and is not
modelled.) -/
def scanField (w : Nat) (s : List Char) : Option (Nat × List Char) :=
  match s.dropWhile Char.isWhitespace with
  | [] => none
  | c :: rest =>
    if c.isDigit then some (scanDigits (w - 1) (digitVal c) rest)
    else none

/-- A literal character of an `sscanf` format: it must match the next
input character exactly, otherwise matching stops. -/
def scanLiteral (c : Char) (s : List Char) : Option (List Char) :=
  match s with
  | [] => none
  | x :: rest => if x = c then some rest else none

/-- `sscanf(rdate, "%02d%02d%04d", &month, &day, &year)` from
`src/msi-ec.c:528`: fields that fail to match are left unassigned
(`none`). -/
def sscanf_date (s : List Char) : Option Nat × Option Nat × Option Nat :=
  match scanField 2 s with
  | none => (none, none, none)
  | some (m, s1) =>
    match scanField 2 s1 with
    | none => (some m, none, none)
    | some (d, s2) =>
      match scanField 4 s2 with
      | none => (some m, some d, none)
      | some (y, _) => (some m, some d, some y)

/-- `sscanf(rtime, "%02d:%02d:%02d", &hour, &minute, &second)` from
`src/msi-ec.c:535`. -/
def sscanf_time (s : List Char) : Option Nat × Option Nat × Option Nat :=
  match scanField 2 s with
  | none => (none, none, none)
  | some (h, s1) =>
    match scanLiteral (Char.ofNat 58) s1 with
    | none => (some h, none, none)
    | some s2 =>
      match scanField 2 s2 with
      | none => (some h, none, none)
      | some (mi, s3) =>
        match scanLiteral (Char.ofNat 58) s3 with
        | none => (some h, some mi, none)
        | some s4 =>
          match scanField 2 s4 with
          | none => (some h, some mi, none)
          | some (sec, _) => (some h, some mi, some sec)

/-- `%02d` of the output `sprintf`: zero-pad to two digits. -/
def pad2 (n : Nat) : String :=
  if n < 10 then "0" ++ Nat.repr n else Nat.repr n

/-- `%04d` of the output `sprintf`: zero-pad to four digits. -/
def pad4 (n : Nat) : String :=
  if n < 10 then "000" ++ Nat.repr n
  else if n < 100 then "00" ++ Nat.repr n
  else if n < 1000 then "0" ++ Nat.repr n
  else Nat.repr n

/-- `fw_release_date_show` from `src/msi-ec.c:515`: read the fixed-width
date and time texts (`dateRead`/`timeRead` are the `ec_read_seq` results;
`none` is a transport failure, propagated as the only failure of the
operation), run the two `sscanf` calls without checking how many fields
they assigned, and format the result.  A field `sscanf` did not assign
keeps the prior, indeterminate content of its stack variable, passed here
as `m0 d0 y0 h0 mi0 s0`. -/
def fw_release_date_show (dateRead timeRead : Option (List Char))
    (m0 d0 y0 h0 mi0 s0 : Nat) : Option String :=
  match dateRead with
  | none => none
  | some rdate =>
    let md := sscanf_date rdate
    match timeRead with
    | none => none
    | some rtime =>
      let ht := sscanf_time rtime
      some (pad4 (md.2.2.getD y0) ++ "/" ++ pad2 (md.1.getD m0) ++ "/"
        ++ pad2 (md.2.1.getD d0) ++ " " ++ pad2 (ht.1.getD h0) ++ ":"
        ++ pad2 (ht.2.1.getD mi0) ++ ":" ++ pad2 (ht.2.2.getD s0))

theorem matchFrom_last (t : PresetTables) (regs : Regs)
    (rf : Nat → Nat → Bool) (v c : Nat) (h : ¬ c < t.mem.length) :
    matchFrom t regs rf v c = true := by
  unfold matchFrom
  rw [show t.mem.length - c = 0 by omega]
  rfl

theorem matchFrom_step (t : PresetTables) (regs : Regs)
    (rf : Nat → Nat → Bool) (v c : Nat) (h : c < t.mem.length) :
    matchFrom t regs rf v c
      = ((!rf v c && colMatches t regs v c)
          && matchFrom t regs rf v (c + 1)) := by
  unfold matchFrom
  rw [show t.mem.length - c = (t.mem.length - (c + 1)) + 1 by omega]
  simp only [matchAux]
  rw [if_pos h]
  simp only [colMatches]
  by_cases hrf : rf v c = true
  · simp [hrf]
  · rw [Bool.not_eq_true] at hrf
    simp only [hrf, if_neg Bool.false_ne_true, Bool.not_false, Bool.true_and]
    by_cases hk : c = t.kbdCol
    · simp [hk]
    · simp only [if_neg hk]
      by_cases hs : c = t.silentCol
      · simp only [hs, if_pos rfl]
        by_cases he : ((t.val.getD v []).getD t.silentCol 0
            == (if is_bit_set MSI_EC_FAN_MODE_SILENT_BIT
                  (regs (t.mem.getD t.silentCol 0)) then 1 else 0)) = true
        · simp [he, beq_eq_decide]
          congr 1
          exact decide_eq_decide.mpr Iff.rfl
        · rw [Bool.not_eq_true] at he
          simp [he, beq_eq_decide]
          congr 1
          exact decide_eq_decide.mpr Iff.rfl
      · simp only [if_neg hs]
        by_cases he : ((t.val.getD v []).getD c 0 == regs (t.mem.getD c 0))
            = true
        · simp [he, beq_eq_decide]
          congr 1
          exact decide_eq_decide.mpr Iff.rfl
        · rw [Bool.not_eq_true] at he
          simp [he, beq_eq_decide]
          congr 1
          exact decide_eq_decide.mpr Iff.rfl

theorem matchFrom_true_iff (t : PresetTables) (regs : Regs)
    (rf : Nat → Nat → Bool) (v : Nat) :
    ∀ c, matchFrom t regs rf v c = true
      ↔ (∀ j, c ≤ j → j < t.mem.length →
          rf v j = false ∧ colMatches t regs v j = true) := by
  have key : ∀ n c, t.mem.length - c = n →
      (matchFrom t regs rf v c = true
        ↔ (∀ j, c ≤ j → j < t.mem.length →
            rf v j = false ∧ colMatches t regs v j = true)) := by
    intro n
    induction n with
    | zero =>
      intro c hc
      rw [matchFrom_last t regs rf v c (by omega)]
      constructor
      · intro _ j hj1 hj2
        omega
      · intro _
        rfl
    | succ n ih =>
      intro c hc
      have hlt : c < t.mem.length := by omega
      rw [matchFrom_step t regs rf v c hlt]
      rw [Bool.and_eq_true, Bool.and_eq_true, Bool.not_eq_true']
      rw [ih (c + 1) (by omega)]
      constructor
      · rintro ⟨⟨h1, h2⟩, h3⟩ j hj1 hj2
        rcases Nat.eq_or_lt_of_le hj1 with hj | hj
        · exact ⟨hj ▸ h1, hj ▸ h2⟩
        · exact h3 j hj hj2
      · intro h
        exact ⟨⟨(h c le_rfl hlt).1, (h c le_rfl hlt).2⟩,
          fun j hj1 hj2 => h j (by omega) hj2⟩
  exact fun c => key (t.mem.length - c) c rfl

theorem matchFrom_noFail_eq_presetMatches (t : PresetTables) (regs : Regs)
    (v : Nat) :
    matchFrom t regs (fun _ _ => false) v 0 = presetMatches t regs v := by
  rw [Bool.eq_iff_iff, matchFrom_true_iff]
  unfold presetMatches
  rw [List.all_eq_true]
  constructor
  · intro h j hj
    rw [List.mem_range] at hj
    exact (h j (Nat.zero_le j) hj).2
  · intro h j _ hj
    exact ⟨rfl, h j (List.mem_range.mpr hj)⟩

theorem matchFrom_false_of_readFail (t : PresetTables) (regs : Regs)
    (rf : Nat → Nat → Bool) (v c : Nat) (hc : c < t.mem.length)
    (hrf : rf v c = true) :
    matchFrom t regs rf v 0 = false := by
  rw [Bool.eq_false_iff]
  intro h
  rw [matchFrom_true_iff] at h
  have := (h c (Nat.zero_le c) hc).1
  rw [this] at hrf
  exact Bool.false_ne_true hrf

/-- The column `c` occupies a register address no other column of the
table shares; stated as a boolean so a concrete table discharges it by
evaluation. -/
def addrIsolated (t : PresetTables) (c : Nat) : Bool :=
  (List.range t.mem.length).all fun j =>
    j == c || t.mem.getD j 0 != t.mem.getD c 0

theorem addrIsolated_spec (t : PresetTables) (c : Nat)
    (h : addrIsolated t c = true) :
    ∀ j, j < t.mem.length → j ≠ c → t.mem.getD j 0 ≠ t.mem.getD c 0 := by
  intro j hj hne
  unfold addrIsolated at h
  rw [List.all_eq_true] at h
  have := h j (List.mem_range.mpr hj)
  simp only [Bool.or_eq_true, beq_iff_eq, bne_iff_ne, ne_eq] at this
  rcases this with h1 | h1
  · exact absurd h1 hne
  · exact h1

theorem colMatches_update_kbd (t : PresetTables) (regs : Regs) (v b j : Nat)
    (hj : j < t.mem.length)
    (hiso : addrIsolated t t.kbdCol = true) :
    colMatches t (updateReg regs (t.mem.getD t.kbdCol 0) b) v j
      = colMatches t regs v j := by
  by_cases hk : j = t.kbdCol
  · simp [colMatches, hk]
  · have haddr := addrIsolated_spec t t.kbdCol hiso j hj hk
    unfold colMatches
    rw [updateReg_other regs (t.mem.getD t.kbdCol 0) b (t.mem.getD j 0) haddr]

theorem matchFrom_update_kbd (t : PresetTables) (regs : Regs)
    (rf : Nat → Nat → Bool) (v b : Nat)
    (hiso : addrIsolated t t.kbdCol = true) :
    matchFrom t (updateReg regs (t.mem.getD t.kbdCol 0) b) rf v 0
      = matchFrom t regs rf v 0 := by
  rw [Bool.eq_iff_iff, matchFrom_true_iff, matchFrom_true_iff]
  constructor
  · intro h j hj1 hj2
    have := h j hj1 hj2
    rwa [colMatches_update_kbd t regs v b j hj2 hiso] at this
  · intro h j hj1 hj2
    have := h j hj1 hj2
    rwa [colMatches_update_kbd t regs v b j hj2 hiso]

theorem showFrom_last (t : PresetTables) (regs : Regs)
    (rf : Nat → Nat → Bool) (v : Nat) (h : ¬ v < t.val.length) :
    showFrom t regs rf v = "custom" := by
  unfold showFrom
  rw [show t.val.length - v = 0 by omega]
  rfl

theorem showFrom_step (t : PresetTables) (regs : Regs)
    (rf : Nat → Nat → Bool) (v : Nat) (h : v < t.val.length) :
    showFrom t regs rf v
      = if matchFrom t regs rf v 0 then
          if v = MSI_EC_PRESET_SUPER_BATTERY then "super_battery"
          else if v = MSI_EC_PRESET_SILENT then "silent"
          else if v = MSI_EC_PRESET_BALANCED then "balanced"
          else if v = MSI_EC_PRESET_HIGH_PERFORMANCE then "high_performance"
          else showFrom t regs rf (v + 1)
        else showFrom t regs rf (v + 1) := by
  unfold showFrom
  rw [show t.val.length - v = (t.val.length - (v + 1)) + 1 by omega]
  simp only [showAux]
  rw [if_pos h]

theorem showFrom_mem (t : PresetTables) (regs : Regs)
    (rf : Nat → Nat → Bool) :
    ∀ v, showFrom t regs rf v
      ∈ ["super_battery", "silent", "balanced", "high_performance",
         "custom"] := by
  have key : ∀ n v, t.val.length - v = n →
      showFrom t regs rf v
        ∈ ["super_battery", "silent", "balanced", "high_performance",
           "custom"] := by
    intro n
    induction n with
    | zero =>
      intro v hv
      rw [showFrom_last t regs rf v (by omega)]
      simp
    | succ n ih =>
      intro v hv
      have hlt : v < t.val.length := by omega
      rw [showFrom_step t regs rf v hlt]
      have hnext := ih (v + 1) (by omega)
      by_cases hm : matchFrom t regs rf v 0 = true
      · rw [if_pos hm]
        by_cases h0 : v = MSI_EC_PRESET_SUPER_BATTERY
        · simp [h0]
        · rw [if_neg h0]
          by_cases h1 : v = MSI_EC_PRESET_SILENT
          · simp [h1]
          · rw [if_neg h1]
            by_cases h2 : v = MSI_EC_PRESET_BALANCED
            · simp [h2]
            · rw [if_neg h2]
              by_cases h3 : v = MSI_EC_PRESET_HIGH_PERFORMANCE
              · simp [h3]
              · rw [if_neg h3]
                exact hnext
      · rw [Bool.not_eq_true] at hm
        rw [hm, if_neg Bool.false_ne_true]
        exact hnext
  exact fun v => key (t.val.length - v) v rfl

theorem showFrom_skip (t : PresetTables) (regs : Regs)
    (rf : Nat → Nat → Bool) (v : Nat)
    (h : matchFrom t regs rf v 0 = false) :
    showFrom t regs rf v = showFrom t regs rf (v + 1) := by
  by_cases hv : v < t.val.length
  · rw [showFrom_step t regs rf v hv, h, if_neg Bool.false_ne_true]
  · rw [showFrom_last t regs rf v hv,
      showFrom_last t regs rf (v + 1) (by omega)]

theorem showFrom_custom (t : PresetTables) (regs : Regs)
    (rf : Nat → Nat → Bool)
    (h : ∀ u, u < t.val.length → matchFrom t regs rf u 0 = false) :
    ∀ v, showFrom t regs rf v = "custom" := by
  have key : ∀ n v, t.val.length - v = n →
      showFrom t regs rf v = "custom" := by
    intro n
    induction n with
    | zero =>
      intro v hv
      exact showFrom_last t regs rf v (by omega)
    | succ n ih =>
      intro v hv
      have hlt : v < t.val.length := by omega
      rw [showFrom_skip t regs rf v (h v hlt)]
      exact ih (v + 1) (by omega)
  exact fun v => key (t.val.length - v) v rfl

theorem showFrom_reach (t : PresetTables) (regs : Regs)
    (rf : Nat → Nat → Bool) (u : Nat)
    (hfirst : ∀ w, w < u → matchFrom t regs rf w 0 = false) :
    ∀ v, v ≤ u → showFrom t regs rf v = showFrom t regs rf u := by
  have key : ∀ n v, v ≤ u → u - v = n →
      showFrom t regs rf v = showFrom t regs rf u := by
    intro n
    induction n with
    | zero =>
      intro v hv hn
      have : v = u := by omega
      rw [this]
    | succ n ih =>
      intro v hv hn
      have hvu : v < u := by omega
      rw [showFrom_skip t regs rf v (hfirst v hvu)]
      exact ih (v + 1) (by omega) (by omega)
  exact fun v hv => key (u - v) v hv rfl

theorem preset_show_first_match (t : PresetTables) (regs : Regs)
    (rf : Nat → Nat → Bool) (u : Nat)
    (hlen : u < t.val.length) (hu4 : u < 4)
    (hmatch : matchFrom t regs rf u 0 = true)
    (hfirst : ∀ w, w < u → matchFrom t regs rf w 0 = false) :
    preset_show t regs rf = presetName u := by
  unfold preset_show
  rw [showFrom_reach t regs rf u hfirst 0 (Nat.zero_le u)]
  rw [showFrom_step t regs rf u hlen, hmatch, if_pos rfl]
  unfold presetName MSI_EC_PRESET_SUPER_BATTERY MSI_EC_PRESET_SILENT
    MSI_EC_PRESET_BALANCED MSI_EC_PRESET_HIGH_PERFORMANCE
  interval_cases u <;> simp

theorem foldl_writeColumn_untouched (t : PresetTables) (idx : Nat)
    (wf : Nat → Bool) (a : Nat) :
    ∀ (L : List Nat) (regs : Regs),
      (∀ c, c ∈ L → t.mem.getD c 0 ≠ a) →
      (L.foldl (writeColumn t idx wf) regs) a = regs a := by
  intro L
  induction L with
  | nil =>
    intro regs _
    rfl
  | cons c0 rest ih =>
    intro regs h
    rw [List.foldl_cons]
    rw [ih (writeColumn t idx wf regs c0)
      (fun c hc => h c (List.mem_cons_of_mem c0 hc))]
    have ha := h c0 (List.mem_cons_self c0 rest)
    unfold writeColumn
    by_cases hwf : wf c0 = true
    · rw [if_pos hwf]
    · rw [Bool.not_eq_true] at hwf
      rw [hwf, if_neg Bool.false_ne_true]
      by_cases hs : c0 = t.silentCol
      · rw [if_pos hs, updateReg_other _ _ _ _ (Ne.symm ha)]
      · rw [if_neg hs, updateReg_other _ _ _ _ (Ne.symm ha)]

theorem foldl_writeColumn_written (t : PresetTables) (idx : Nat)
    (wf : Nat → Bool) (c : Nat)
    (hwf : wf c = false) (hsil : c ≠ t.silentCol) :
    ∀ (L : List Nat) (regs : Regs),
      c ∈ L →
      (∀ j, j ∈ L → j ≠ c → t.mem.getD j 0 ≠ t.mem.getD c 0) →
      (L.foldl (writeColumn t idx wf) regs) (t.mem.getD c 0)
        = (t.val.getD idx []).getD c 0 := by
  intro L
  induction L with
  | nil =>
    intro regs hm
    exact absurd hm (List.not_mem_nil c)
  | cons c0 rest ih =>
    intro regs hm hd
    rw [List.foldl_cons]
    by_cases hrest : c ∈ rest
    · exact ih (writeColumn t idx wf regs c0) hrest
        (fun j hj => hd j (List.mem_cons_of_mem c0 hj))
    · have hc0 : c0 = c := by
        rcases List.mem_cons.mp hm with h | h
        · exact h.symm
        · exact absurd h hrest
      rw [foldl_writeColumn_untouched t idx wf (t.mem.getD c 0) rest
        (writeColumn t idx wf regs c0)
        (fun j hj => hd j (List.mem_cons_of_mem c0 hj)
          (fun hjc => hrest (hjc ▸ hj)))]
      unfold writeColumn
      rw [hc0, hwf, if_neg Bool.false_ne_true, if_neg hsil, updateReg_same]

theorem storeColumns_written (t : PresetTables) (idx : Nat)
    (wf : Nat → Bool) (regs : Regs) (c : Nat)
    (hc : c < t.mem.length) (hwf : wf c = false) (hsil : c ≠ t.silentCol)
    (hiso : addrIsolated t c = true) :
    storeColumns t idx wf regs (t.mem.getD c 0)
      = (t.val.getD idx []).getD c 0 := by
  unfold storeColumns
  exact foldl_writeColumn_written t idx wf c hwf hsil
    (List.range t.mem.length) regs (List.mem_range.mpr hc)
    (fun j hj hne =>
      addrIsolated_spec t c hiso j (List.mem_range.mp hj) hne)

/-- Claim C8 (confirmed): a successful `write_bit(addr, bit, v)` followed
by `read_bit(addr, bit)` yields `v`, leaves every other bit `j` of the
byte at `addr` unchanged, and leaves every other address `a`
unchanged. -/
theorem ec_write_bit_roundtrip (regs : Regs) (addr index : Nat)
    (set : Bool) (j a : Nat)
    (hidx : index < 8) (h256 : regs addr < 256) (hj : j ≠ index)
    (ha : a ≠ addr) :
    ec_write_bit regs addr index set true true
      = some (updateReg regs addr
          (ec_write_bit_byte (regs addr) index set)) ∧
    read_bit (updateReg regs addr (ec_write_bit_byte (regs addr) index set))
      addr index = set ∧
    (updateReg regs addr (ec_write_bit_byte (regs addr) index set)
        addr).testBit j
      = (regs addr).testBit j ∧
    updateReg regs addr (ec_write_bit_byte (regs addr) index set) a
      = regs a := by
  refine ⟨rfl, ?_, ?_, ?_⟩
  · unfold read_bit
    rw [updateReg_same, is_bit_set_eq_testBit]
    exact testBit_ec_write_bit_byte_self (regs addr) index set hidx
  · rw [updateReg_same]
    exact testBit_ec_write_bit_byte_other (regs addr) index j set hidx
      h256 hj
  · exact updateReg_other regs addr _ a ha

theorem ec_write_bit_roundtrip_witness :
    ec_write_bit (fun _ => 170) 68 3 true true true
      = some (updateReg (fun _ => 170) 68 (ec_write_bit_byte 170 3 true)) ∧
    read_bit (updateReg (fun _ => 170) 68 (ec_write_bit_byte 170 3 true))
      68 3 = true ∧
    (updateReg (fun _ => 170) 68 (ec_write_bit_byte 170 3 true)
        68).testBit 5
      = (170 : Nat).testBit 5 ∧
    updateReg (fun _ => 170) 68 (ec_write_bit_byte 170 3 true) 67 = 170 :=
  ec_write_bit_roundtrip (fun _ => 170) 68 3 true 5 67 (by decide)
    (by decide) (by decide) (by decide)

/-- Claim C9 (confirmed): the fan-mode read is total — every byte maps to
one of the four mode strings, never an unknown or error value — and the
mutually exclusive flag bits are resolved with silent beating advanced
beating basic, "auto" when none is set. -/
theorem fan_mode_show_total_priority (b : Nat) :
    fan_mode_show b ∈ ["silent", "advanced", "basic", "auto"] ∧
    (fan_mode_show b = "silent"
      ↔ is_bit_set MSI_EC_FAN_MODE_SILENT_BIT b = true) ∧
    (fan_mode_show b = "advanced"
      ↔ (is_bit_set MSI_EC_FAN_MODE_SILENT_BIT b = false
          ∧ is_bit_set MSI_EC_FAN_MODE_ADVANCED_BIT b = true)) ∧
    (fan_mode_show b = "basic"
      ↔ (is_bit_set MSI_EC_FAN_MODE_SILENT_BIT b = false
          ∧ is_bit_set MSI_EC_FAN_MODE_ADVANCED_BIT b = false
          ∧ is_bit_set MSI_EC_FAN_MODE_BASIC_BIT b = true)) ∧
    (fan_mode_show b = "auto"
      ↔ (is_bit_set MSI_EC_FAN_MODE_SILENT_BIT b = false
          ∧ is_bit_set MSI_EC_FAN_MODE_ADVANCED_BIT b = false
          ∧ is_bit_set MSI_EC_FAN_MODE_BASIC_BIT b = false)) := by
  by_cases h1 : is_bit_set MSI_EC_FAN_MODE_SILENT_BIT b = true
  · simp [fan_mode_show, h1]
  · rw [Bool.not_eq_true] at h1
    by_cases h2 : is_bit_set MSI_EC_FAN_MODE_ADVANCED_BIT b = true
    · simp [fan_mode_show, h1, h2]
    · rw [Bool.not_eq_true] at h2
      by_cases h3 : is_bit_set MSI_EC_FAN_MODE_BASIC_BIT b = true
      · simp [fan_mode_show, h1, h2, h3]
      · rw [Bool.not_eq_true] at h3
        simp [fan_mode_show, h1, h2, h3]

theorem fan_mode_show_total_priority_witness :
    fan_mode_show 16 ∈ ["silent", "advanced", "basic", "auto"] ∧
    (fan_mode_show 16 = "silent"
      ↔ is_bit_set MSI_EC_FAN_MODE_SILENT_BIT 16 = true) ∧
    (fan_mode_show 16 = "advanced"
      ↔ (is_bit_set MSI_EC_FAN_MODE_SILENT_BIT 16 = false
          ∧ is_bit_set MSI_EC_FAN_MODE_ADVANCED_BIT 16 = true)) ∧
    (fan_mode_show 16 = "basic"
      ↔ (is_bit_set MSI_EC_FAN_MODE_SILENT_BIT 16 = false
          ∧ is_bit_set MSI_EC_FAN_MODE_ADVANCED_BIT 16 = false
          ∧ is_bit_set MSI_EC_FAN_MODE_BASIC_BIT 16 = true)) ∧
    (fan_mode_show 16 = "auto"
      ↔ (is_bit_set MSI_EC_FAN_MODE_SILENT_BIT 16 = false
          ∧ is_bit_set MSI_EC_FAN_MODE_ADVANCED_BIT 16 = false
          ∧ is_bit_set MSI_EC_FAN_MODE_BASIC_BIT 16 = false)) :=
  fan_mode_show_total_priority 16

/-- Claim C7 (confirmed): for every raw fan-speed byte the decode returns
0 at the calibrated minimum, 100 at the calibrated maximum, the linear
rescale `100 * (raw - mn) / (mx - mn)` in between, and the out-of-range
failure (`-EINVAL`, never a clamped value) strictly below the minimum or
strictly above the maximum. -/
theorem cpu_realtime_fan_speed_show_spec (mn mx r : Nat) (h : mn < mx) :
    cpu_realtime_fan_speed_show mn mx mn = some 0 ∧
    cpu_realtime_fan_speed_show mn mx mx = some 100 ∧
    (mn ≤ r → r ≤ mx →
      cpu_realtime_fan_speed_show mn mx r
        = some (100 * (r - mn) / (mx - mn))) ∧
    (r < mn ∨ mx < r → cpu_realtime_fan_speed_show mn mx r = none) := by
  refine ⟨?_, ?_, ?_, ?_⟩
  · unfold cpu_realtime_fan_speed_show
    rw [if_neg (by omega)]
    simp
  · unfold cpu_realtime_fan_speed_show
    rw [if_neg (by omega)]
    rw [Nat.mul_div_cancel 100 (by omega : 0 < mx - mn)]
  · intro h1 h2
    unfold cpu_realtime_fan_speed_show
    rw [if_neg (by omega)]
  · intro h1
    unfold cpu_realtime_fan_speed_show
    rw [if_pos h1]

theorem cpu_realtime_fan_speed_show_spec_witness :
    cpu_realtime_fan_speed_show MSI_EC_CPU_REALTIME_FAN_SPEED_BASE_MIN
      MSI_EC_CPU_REALTIME_FAN_SPEED_BASE_MAX
      MSI_EC_CPU_REALTIME_FAN_SPEED_BASE_MIN = some 0 ∧
    cpu_realtime_fan_speed_show MSI_EC_CPU_REALTIME_FAN_SPEED_BASE_MIN
      MSI_EC_CPU_REALTIME_FAN_SPEED_BASE_MAX
      MSI_EC_CPU_REALTIME_FAN_SPEED_BASE_MAX = some 100 ∧
    (MSI_EC_CPU_REALTIME_FAN_SPEED_BASE_MIN ≤ 40 → 40 ≤
        MSI_EC_CPU_REALTIME_FAN_SPEED_BASE_MAX →
      cpu_realtime_fan_speed_show MSI_EC_CPU_REALTIME_FAN_SPEED_BASE_MIN
        MSI_EC_CPU_REALTIME_FAN_SPEED_BASE_MAX 40
        = some (100 * (40 - MSI_EC_CPU_REALTIME_FAN_SPEED_BASE_MIN)
            / (MSI_EC_CPU_REALTIME_FAN_SPEED_BASE_MAX
                - MSI_EC_CPU_REALTIME_FAN_SPEED_BASE_MIN))) ∧
    (40 < MSI_EC_CPU_REALTIME_FAN_SPEED_BASE_MIN ∨
        MSI_EC_CPU_REALTIME_FAN_SPEED_BASE_MAX < 40 →
      cpu_realtime_fan_speed_show MSI_EC_CPU_REALTIME_FAN_SPEED_BASE_MIN
        MSI_EC_CPU_REALTIME_FAN_SPEED_BASE_MAX 40 = none) :=
  cpu_realtime_fan_speed_show_spec MSI_EC_CPU_REALTIME_FAN_SPEED_BASE_MIN
    MSI_EC_CPU_REALTIME_FAN_SPEED_BASE_MAX 40 (by decide)

/-- Claim C2 (confirmed): for every register state the classification of a
candidate preset row skips the keyboard-backlight column unconditionally
(changing the byte at its address never changes whether a row matches),
compares the fan-silent column through the silent bit against the table's
stored boolean, requires exact byte equality on every other column (the
row match equals the spec-worded `presetMatches`), and returns the first
table row, in declared order, whose columns all match. -/
theorem preset_show_classifies (t : PresetTables) (regs : Regs)
    (rf : Nat → Nat → Bool) (v b u : Nat)
    (hiso : addrIsolated t t.kbdCol = true)
    (hu : u < t.val.length) (hu4 : u < 4)
    (hmatch : matchFrom t regs rf u 0 = true)
    (hfirst : ∀ w, w < u → matchFrom t regs rf w 0 = false) :
    matchFrom t regs (fun _ _ => false) v 0 = presetMatches t regs v ∧
    matchFrom t (updateReg regs (t.mem.getD t.kbdCol 0) b) rf v 0
      = matchFrom t regs rf v 0 ∧
    preset_show t regs rf = presetName u :=
  ⟨matchFrom_noFail_eq_presetMatches t regs v,
   matchFrom_update_kbd t regs rf v b hiso,
   preset_show_first_match t regs rf u hu hu4 hmatch hfirst⟩

theorem preset_show_classifies_witness :
    matchFrom specTables (fun a => if a = 0xd2 then 0xc1 else 0)
        (fun _ _ => false) 0 0
      = presetMatches specTables (fun a => if a = 0xd2 then 0xc1 else 0) 0 ∧
    matchFrom specTables
        (updateReg (fun a => if a = 0xd2 then 0xc1 else 0)
          (specTables.mem.getD specTables.kbdCol 0) 7) (fun _ _ => false) 0 0
      = matchFrom specTables (fun a => if a = 0xd2 then 0xc1 else 0)
          (fun _ _ => false) 0 0 ∧
    preset_show specTables (fun a => if a = 0xd2 then 0xc1 else 0)
        (fun _ _ => false)
      = presetName 2 :=
  preset_show_classifies specTables (fun a => if a = 0xd2 then 0xc1 else 0)
    (fun _ _ => false) 0 7 2 (by decide) (by decide) (by decide) (by decide)
    (by intro w hw; interval_cases w <;> decide)

/-- Claim C3 (confirmed): classification never fails — its result is
always one of the four preset names or "custom" — a transport read failure
on any column of a row only makes that row non-matching, the outer loop
then continues with the next row, and when no row matches the result is
the first-class string "custom". -/
theorem preset_show_never_fails (t : PresetTables) (regs : Regs)
    (rf : Nat → Nat → Bool) (v c w : Nat)
    (hc : c < t.mem.length) (hrf : rf v c = true)
    (hw : matchFrom t regs rf w 0 = false) :
    preset_show t regs rf
      ∈ ["super_battery", "silent", "balanced", "high_performance",
         "custom"] ∧
    matchFrom t regs rf v 0 = false ∧
    showFrom t regs rf w = showFrom t regs rf (w + 1) ∧
    ((∀ u, u < t.val.length → matchFrom t regs rf u 0 = false) →
      preset_show t regs rf = "custom") :=
  ⟨showFrom_mem t regs rf 0,
   matchFrom_false_of_readFail t regs rf v c hc hrf,
   showFrom_skip t regs rf w hw,
   fun h => showFrom_custom t regs rf h 0⟩

theorem preset_show_never_fails_witness :
    preset_show specTables (fun _ => 0) (fun _ _ => true)
      ∈ ["super_battery", "silent", "balanced", "high_performance",
         "custom"] ∧
    matchFrom specTables (fun _ => 0) (fun _ _ => true) 0 0 = false ∧
    showFrom specTables (fun _ => 0) (fun _ _ => true) 1
      = showFrom specTables (fun _ => 0) (fun _ _ => true) 2 ∧
    ((∀ u, u < specTables.val.length →
        matchFrom specTables (fun _ => 0) (fun _ _ => true) u 0 = false) →
      preset_show specTables (fun _ => 0) (fun _ _ => true) = "custom") :=
  preset_show_never_fails specTables (fun _ => 0) (fun _ _ => true) 0 0 1
    (by decide) (by decide) (by decide)

theorem preset_store_fst_true (t : PresetTables) (regs : Regs)
    (buf : String) (wf : Nat → Bool) (af bf : Bool) (idx : Nat)
    (h : preset_index buf = some idx) :
    (preset_store t regs buf wf af bf).fst = true := by
  simp only [preset_store, h]
  split <;> rfl

theorem if_updateReg_fan_other (b : Bool) (r : Regs) (x a : Nat)
    (ha : a ≠ MSI_EC_FAN_MODE_ADDRESS) :
    (if b then r else updateReg r MSI_EC_FAN_MODE_ADDRESS x) a = r a := by
  by_cases hb : b = true
  · rw [if_pos hb]
  · rw [Bool.not_eq_true] at hb
    rw [hb, if_neg Bool.false_ne_true,
      updateReg_other r MSI_EC_FAN_MODE_ADDRESS x a ha]

theorem preset_store_snd_col (t : PresetTables) (regs : Regs)
    (buf : String) (wf : Nat → Bool) (af bf : Bool) (idx c : Nat)
    (h : preset_index buf = some idx)
    (hc : c < t.mem.length) (hwf : wf c = false) (hsil : c ≠ t.silentCol)
    (hiso : addrIsolated t c = true)
    (hfan : t.mem.getD c 0 ≠ MSI_EC_FAN_MODE_ADDRESS) :
    (preset_store t regs buf wf af bf).snd (t.mem.getD c 0)
      = (t.val.getD idx []).getD c 0 := by
  simp only [preset_store, h]
  split
  · simp only []
    rw [if_updateReg_fan_other bf _ _ _ hfan,
      if_updateReg_fan_other af _ _ _ hfan]
    exact storeColumns_written t idx wf regs c hc hwf hsil hiso
  · simp only []
    exact storeColumns_written t idx wf regs c hc hwf hsil hiso

theorem foldl_writeColumn_silent (t : PresetTables) (idx : Nat)
    (wf : Nat → Bool) (hwf : wf t.silentCol = false) :
    ∀ (L : List Nat) (regs : Regs),
      t.silentCol ∈ L →
      (∀ j, j ∈ L → j ≠ t.silentCol →
        t.mem.getD j 0 ≠ t.mem.getD t.silentCol 0) →
      ∃ X, (L.foldl (writeColumn t idx wf) regs)
          (t.mem.getD t.silentCol 0)
        = ec_write_bit_byte X MSI_EC_FAN_MODE_SILENT_BIT
            (((t.val.getD idx []).getD t.silentCol 0) != 0) := by
  intro L
  induction L with
  | nil =>
    intro regs hm
    exact absurd hm (List.not_mem_nil t.silentCol)
  | cons c0 rest ih =>
    intro regs hm hd
    rw [List.foldl_cons]
    by_cases hrest : t.silentCol ∈ rest
    · exact ih (writeColumn t idx wf regs c0) hrest
        (fun j hj => hd j (List.mem_cons_of_mem c0 hj))
    · have hc0 : c0 = t.silentCol := by
        rcases List.mem_cons.mp hm with h | h
        · exact h.symm
        · exact absurd h hrest
      refine ⟨regs (t.mem.getD t.silentCol 0), ?_⟩
      rw [foldl_writeColumn_untouched t idx wf (t.mem.getD t.silentCol 0)
        rest (writeColumn t idx wf regs c0)
        (fun j hj => hd j (List.mem_cons_of_mem c0 hj)
          (fun hjc => hrest (hjc ▸ hj)))]
      unfold writeColumn
      rw [hc0, hwf, if_neg Bool.false_ne_true, if_pos rfl, updateReg_same]

theorem storeColumns_silent (t : PresetTables) (idx : Nat)
    (wf : Nat → Bool) (regs : Regs)
    (hs : t.silentCol < t.mem.length) (hwfs : wf t.silentCol = false)
    (hisos : addrIsolated t t.silentCol = true) :
    ∃ X, storeColumns t idx wf regs (t.mem.getD t.silentCol 0)
      = ec_write_bit_byte X MSI_EC_FAN_MODE_SILENT_BIT
          (((t.val.getD idx []).getD t.silentCol 0) != 0) := by
  unfold storeColumns
  exact foldl_writeColumn_silent t idx wf hwfs (List.range t.mem.length)
    regs (List.mem_range.mpr hs)
    (fun j hj hne =>
      addrIsolated_spec t t.silentCol hisos j (List.mem_range.mp hj) hne)

theorem if_clear_fan_testBit (b : Bool) (r : Regs) (i j : Nat) (hi : i < 8)
    (h256 : r MSI_EC_FAN_MODE_ADDRESS < 256) (hj : j ≠ i) :
    ((if b then r
      else updateReg r MSI_EC_FAN_MODE_ADDRESS
        (ec_write_bit_byte (r MSI_EC_FAN_MODE_ADDRESS) i false))
        MSI_EC_FAN_MODE_ADDRESS).testBit j
      = (r MSI_EC_FAN_MODE_ADDRESS).testBit j := by
  by_cases hb : b = true
  · rw [if_pos hb]
  · rw [Bool.not_eq_true] at hb
    rw [hb, if_neg Bool.false_ne_true, updateReg_same]
    exact testBit_ec_write_bit_byte_other _ _ _ _ hi h256 hj

theorem if_clear_fan_lt (b : Bool) (r : Regs) (i : Nat)
    (h256 : r MSI_EC_FAN_MODE_ADDRESS < 256) :
    (if b then r
      else updateReg r MSI_EC_FAN_MODE_ADDRESS
        (ec_write_bit_byte (r MSI_EC_FAN_MODE_ADDRESS) i false))
        MSI_EC_FAN_MODE_ADDRESS < 256 := by
  by_cases hb : b = true
  · rw [if_pos hb]
    exact h256
  · rw [Bool.not_eq_true] at hb
    rw [hb, if_neg Bool.false_ne_true, updateReg_same]
    exact ec_write_bit_byte_lt _ _ _

theorem preset_store_snd_silent (t : PresetTables) (regs : Regs)
    (buf : String) (wf : Nat → Bool) (af bf : Bool) (idx : Nat)
    (h : preset_index buf = some idx)
    (hs : t.silentCol < t.mem.length) (hwfs : wf t.silentCol = false)
    (hisos : addrIsolated t t.silentCol = true) :
    is_bit_set MSI_EC_FAN_MODE_SILENT_BIT
      ((preset_store t regs buf wf af bf).snd
        (t.mem.getD t.silentCol 0))
      = (((t.val.getD idx []).getD t.silentCol 0) != 0) := by
  obtain ⟨X, hX⟩ := storeColumns_silent t idx wf regs hs hwfs hisos
  simp only [preset_store, h]
  split
  · simp only []
    by_cases haddr : t.mem.getD t.silentCol 0 = MSI_EC_FAN_MODE_ADDRESS
    · rw [haddr]
      have hXF : storeColumns t idx wf regs MSI_EC_FAN_MODE_ADDRESS
          = ec_write_bit_byte X MSI_EC_FAN_MODE_SILENT_BIT
              (((t.val.getD idx []).getD t.silentCol 0) != 0) := by
        rw [← haddr]
        exact hX
      have hSF256 : storeColumns t idx wf regs MSI_EC_FAN_MODE_ADDRESS
          < 256 := by
        rw [hXF]
        exact ec_write_bit_byte_lt _ _ _
      rw [is_bit_set_eq_testBit]
      rw [if_clear_fan_testBit bf _ MSI_EC_FAN_MODE_BASIC_BIT
        MSI_EC_FAN_MODE_SILENT_BIT (by decide)
        (if_clear_fan_lt af _ MSI_EC_FAN_MODE_ADVANCED_BIT hSF256)
        (by decide)]
      rw [if_clear_fan_testBit af _ MSI_EC_FAN_MODE_ADVANCED_BIT
        MSI_EC_FAN_MODE_SILENT_BIT (by decide) hSF256 (by decide)]
      rw [hXF]
      exact testBit_ec_write_bit_byte_self _ _ _ (by decide)
    · rw [if_updateReg_fan_other bf _ _ _ haddr,
        if_updateReg_fan_other af _ _ _ haddr]
      rw [is_bit_set_eq_testBit, hX]
      exact testBit_ec_write_bit_byte_self _ _ _ (by decide)
  · simp only []
    rw [is_bit_set_eq_testBit, hX]
    exact testBit_ec_write_bit_byte_self _ _ _ (by decide)

/-- Claim C4 (confirmed): `preset_store` fails only on an unrecognized
name — in that case before issuing any write, the register space coming
back untouched — while for a recognized name the operation reports
success for every pattern of individual column-write failures, all column
writes failing included; every remaining column is still written: each
non-failed ordinary column holds its table byte afterwards, and a
non-failed fan-silent column holds the table's stored boolean in the
silent bit of its byte. -/
theorem preset_store_error_semantics (t : PresetTables) (regs : Regs)
    (buf : String) (wf : Nat → Bool) (af bf : Bool) :
    (preset_index buf = none →
      preset_store t regs buf wf af bf = (false, regs)) ∧
    ((buf = "super_battery" ∨ buf = "silent" ∨ buf = "balanced"
        ∨ buf = "high_performance") →
      (preset_store t regs buf wf af bf).fst = true) ∧
    (∀ idx, preset_index buf = some idx →
      (preset_store t regs buf wf af bf).fst = true ∧
      (∀ c, c < t.mem.length → wf c = false → c ≠ t.silentCol →
        addrIsolated t c = true →
        t.mem.getD c 0 ≠ MSI_EC_FAN_MODE_ADDRESS →
        (preset_store t regs buf wf af bf).snd (t.mem.getD c 0)
          = (t.val.getD idx []).getD c 0) ∧
      (t.silentCol < t.mem.length → wf t.silentCol = false →
        addrIsolated t t.silentCol = true →
        is_bit_set MSI_EC_FAN_MODE_SILENT_BIT
          ((preset_store t regs buf wf af bf).snd
            (t.mem.getD t.silentCol 0))
          = (((t.val.getD idx []).getD t.silentCol 0) != 0))) := by
  refine ⟨?_, ?_, ?_⟩
  · intro h
    simp only [preset_store, h]
  · rintro (h | h | h | h) <;> subst h
    · exact preset_store_fst_true t regs _ wf af bf 0 (by decide)
    · exact preset_store_fst_true t regs _ wf af bf 1 (by decide)
    · exact preset_store_fst_true t regs _ wf af bf 2 (by decide)
    · exact preset_store_fst_true t regs _ wf af bf 3 (by decide)
  · intro idx h
    refine ⟨preset_store_fst_true t regs buf wf af bf idx h, ?_, ?_⟩
    · intro c hc hwf hsil hiso hfan
      exact preset_store_snd_col t regs buf wf af bf idx c h hc hwf hsil
        hiso hfan
    · intro hs hwfs hisos
      exact preset_store_snd_silent t regs buf wf af bf idx h hs hwfs
        hisos

theorem preset_store_error_semantics_witness :
    (preset_index "balanced" = none →
      preset_store specTables (fun _ => 0) "balanced"
        (fun c => decide (c = 0)) false false = (false, fun _ => 0)) ∧
    (("balanced" = "super_battery" ∨ "balanced" = "silent"
        ∨ "balanced" = "balanced" ∨ "balanced" = "high_performance") →
      (preset_store specTables (fun _ => 0) "balanced"
        (fun c => decide (c = 0)) false false).fst = true) ∧
    (∀ idx, preset_index "balanced" = some idx →
      (preset_store specTables (fun _ => 0) "balanced"
        (fun c => decide (c = 0)) false false).fst = true ∧
      (∀ c, c < specTables.mem.length →
        (fun c => decide (c = 0)) c = false →
        c ≠ specTables.silentCol →
        addrIsolated specTables c = true →
        specTables.mem.getD c 0 ≠ MSI_EC_FAN_MODE_ADDRESS →
        (preset_store specTables (fun _ => 0) "balanced"
          (fun c => decide (c = 0)) false false).snd
            (specTables.mem.getD c 0)
          = (specTables.val.getD idx []).getD c 0) ∧
      (specTables.silentCol < specTables.mem.length →
        (fun c => decide (c = 0)) specTables.silentCol = false →
        addrIsolated specTables specTables.silentCol = true →
        is_bit_set MSI_EC_FAN_MODE_SILENT_BIT
          ((preset_store specTables (fun _ => 0) "balanced"
            (fun c => decide (c = 0)) false false).snd
            (specTables.mem.getD specTables.silentCol 0))
          = (((specTables.val.getD idx []).getD
              specTables.silentCol 0) != 0))) :=
  preset_store_error_semantics specTables (fun _ => 0) "balanced"
    (fun c => decide (c = 0)) false false


/-- Claim C5 (confirmed): after the column writes of a recognized preset,
the final consistency step clears both the advanced and the basic
fan-mode flag bits whenever the applied preset row is not the
high-performance one (leaving the other bits of the fan-mode byte and all
other addresses as the column writes left them), and when the applied
preset is high_performance the step does not run, so the state is exactly
the column-write result. -/
theorem preset_store_fan_consistency (t : PresetTables) (regs : Regs)
    (buf : String) (wf : Nat → Bool) (idx : Nat)
    (hidx : preset_index buf = some idx)
    (h256 : storeColumns t idx wf regs MSI_EC_FAN_MODE_ADDRESS < 256) :
    (idx ≠ MSI_EC_PRESET_HIGH_PERFORMANCE →
      is_bit_set MSI_EC_FAN_MODE_ADVANCED_BIT
        ((preset_store t regs buf wf false false).snd
          MSI_EC_FAN_MODE_ADDRESS) = false ∧
      is_bit_set MSI_EC_FAN_MODE_BASIC_BIT
        ((preset_store t regs buf wf false false).snd
          MSI_EC_FAN_MODE_ADDRESS) = false ∧
      (∀ j, j ≠ MSI_EC_FAN_MODE_ADVANCED_BIT →
        j ≠ MSI_EC_FAN_MODE_BASIC_BIT →
        ((preset_store t regs buf wf false false).snd
            MSI_EC_FAN_MODE_ADDRESS).testBit j
          = (storeColumns t idx wf regs
              MSI_EC_FAN_MODE_ADDRESS).testBit j) ∧
      (∀ a, a ≠ MSI_EC_FAN_MODE_ADDRESS →
        (preset_store t regs buf wf false false).snd a
          = storeColumns t idx wf regs a)) ∧
    (idx = MSI_EC_PRESET_HIGH_PERFORMANCE →
      (preset_store t regs buf wf false false).snd
        = storeColumns t idx wf regs) := by
  constructor
  · intro h3
    simp only [preset_store, hidx, if_pos h3, if_neg Bool.false_ne_true]
    refine ⟨?_, ?_, ?_, ?_⟩
    · rw [updateReg_same, updateReg_same, is_bit_set_eq_testBit]
      rw [testBit_ec_write_bit_byte_other _ _ _ _ (by decide)
        (ec_write_bit_byte_lt _ _ _) (by decide)]
      exact testBit_ec_write_bit_byte_self _ _ _ (by decide)
    · rw [updateReg_same, updateReg_same, is_bit_set_eq_testBit]
      exact testBit_ec_write_bit_byte_self _ _ _ (by decide)
    · intro j hj7 hj6
      rw [updateReg_same, updateReg_same]
      rw [testBit_ec_write_bit_byte_other _ _ _ _ (by decide)
        (ec_write_bit_byte_lt _ _ _) hj6]
      exact testBit_ec_write_bit_byte_other _ _ _ _ (by decide) h256 hj7
    · intro a ha
      rw [updateReg_other _ _ _ _ ha, updateReg_other _ _ _ _ ha]
  · intro h3
    subst h3
    simp only [preset_store, hidx]
    rw [if_neg (fun hcon => hcon rfl)]

theorem preset_store_fan_consistency_witness :
    (2 ≠ MSI_EC_PRESET_HIGH_PERFORMANCE →
      is_bit_set MSI_EC_FAN_MODE_ADVANCED_BIT
        ((preset_store specTables (fun _ => 255) "balanced"
          (fun _ => false) false false).snd MSI_EC_FAN_MODE_ADDRESS)
        = false ∧
      is_bit_set MSI_EC_FAN_MODE_BASIC_BIT
        ((preset_store specTables (fun _ => 255) "balanced"
          (fun _ => false) false false).snd MSI_EC_FAN_MODE_ADDRESS)
        = false ∧
      (∀ j, j ≠ MSI_EC_FAN_MODE_ADVANCED_BIT →
        j ≠ MSI_EC_FAN_MODE_BASIC_BIT →
        ((preset_store specTables (fun _ => 255) "balanced"
            (fun _ => false) false false).snd
            MSI_EC_FAN_MODE_ADDRESS).testBit j
          = (storeColumns specTables 2 (fun _ => false) (fun _ => 255)
              MSI_EC_FAN_MODE_ADDRESS).testBit j) ∧
      (∀ a, a ≠ MSI_EC_FAN_MODE_ADDRESS →
        (preset_store specTables (fun _ => 255) "balanced"
          (fun _ => false) false false).snd a
          = storeColumns specTables 2 (fun _ => false) (fun _ => 255) a)) ∧
    (2 = MSI_EC_PRESET_HIGH_PERFORMANCE →
      (preset_store specTables (fun _ => 255) "balanced"
        (fun _ => false) false false).snd
        = storeColumns specTables 2 (fun _ => false) (fun _ => 255)) :=
  preset_store_fan_consistency specTables (fun _ => 255) "balanced"
    (fun _ => false) 2 (by decide) (by decide)

theorem streq_modes_exclusive (buf : String) :
    (streq buf "silent").toNat + (streq buf "basic").toNat
      + (streq buf "advanced").toNat ≤ 1 := by
  by_cases h1 : streq buf "silent" = true
  · rcases (streq_iff buf "silent").mp h1 with h | h <;> subst h <;> decide
  · by_cases h2 : streq buf "basic" = true
    · rcases (streq_iff buf "basic").mp h2 with h | h <;> subst h <;> decide
    · rw [Bool.not_eq_true] at h1 h2
      rw [h1, h2]
      cases streq buf "advanced" <;> decide

/-- Claim C10 (confirmed): a successful `fan_mode_store` with a valid
input sets exactly the flag bit of the requested mode — each of the
silent, advanced and basic bits of the fan-mode byte ends up equal to the
corresponding request, at most one of which is set, and none for "auto" —
while every other bit of that byte and every other address keep their
prior values; a failing intermediate read-modify-write returns the
failure immediately with the remaining bit writes not performed. -/
theorem fan_mode_store_exclusive (regs : Regs) (buf : String)
    (j a : Nat) (f2 f3 : Bool)
    (hrec : (streq buf "auto" || streq buf "silent" || streq buf "basic"
      || streq buf "advanced") = true)
    (h256 : regs MSI_EC_FAN_MODE_ADDRESS < 256)
    (hj1 : j ≠ MSI_EC_FAN_MODE_SILENT_BIT)
    (hj2 : j ≠ MSI_EC_FAN_MODE_BASIC_BIT)
    (hj3 : j ≠ MSI_EC_FAN_MODE_ADVANCED_BIT)
    (ha : a ≠ MSI_EC_FAN_MODE_ADDRESS) :
    (fan_mode_store regs buf false false false).fst = true ∧
    read_bit (fan_mode_store regs buf false false false).snd
        MSI_EC_FAN_MODE_ADDRESS MSI_EC_FAN_MODE_SILENT_BIT
      = streq buf "silent" ∧
    read_bit (fan_mode_store regs buf false false false).snd
        MSI_EC_FAN_MODE_ADDRESS MSI_EC_FAN_MODE_ADVANCED_BIT
      = streq buf "advanced" ∧
    read_bit (fan_mode_store regs buf false false false).snd
        MSI_EC_FAN_MODE_ADDRESS MSI_EC_FAN_MODE_BASIC_BIT
      = streq buf "basic" ∧
    (streq buf "silent").toNat + (streq buf "basic").toNat
      + (streq buf "advanced").toNat ≤ 1 ∧
    ((fan_mode_store regs buf false false false).snd
        MSI_EC_FAN_MODE_ADDRESS).testBit j
      = (regs MSI_EC_FAN_MODE_ADDRESS).testBit j ∧
    (fan_mode_store regs buf false false false).snd a = regs a ∧
    fan_mode_store regs buf true f2 f3 = (false, regs) ∧
    fan_mode_store regs buf false true f3
      = (false, updateReg regs MSI_EC_FAN_MODE_ADDRESS
          (ec_write_bit_byte (regs MSI_EC_FAN_MODE_ADDRESS)
            MSI_EC_FAN_MODE_BASIC_BIT (streq buf "basic"))) ∧
    fan_mode_store regs buf false false true
      = (false, updateReg
          (updateReg regs MSI_EC_FAN_MODE_ADDRESS
            (ec_write_bit_byte (regs MSI_EC_FAN_MODE_ADDRESS)
              MSI_EC_FAN_MODE_BASIC_BIT (streq buf "basic")))
          MSI_EC_FAN_MODE_ADDRESS
          (ec_write_bit_byte
            (ec_write_bit_byte (regs MSI_EC_FAN_MODE_ADDRESS)
              MSI_EC_FAN_MODE_BASIC_BIT (streq buf "basic"))
            MSI_EC_FAN_MODE_ADVANCED_BIT (streq buf "advanced"))) := by
  have hcond : (!streq buf "auto" && !streq buf "basic"
      && !streq buf "advanced" && !streq buf "silent") = false := by
    revert hrec
    cases streq buf "auto" <;> cases streq buf "silent" <;>
      cases streq buf "basic" <;> cases streq buf "advanced" <;> simp
  have hsucc : fan_mode_store regs buf false false false
      = (true,
        updateReg
          (updateReg
            (updateReg regs MSI_EC_FAN_MODE_ADDRESS
              (ec_write_bit_byte (regs MSI_EC_FAN_MODE_ADDRESS)
                MSI_EC_FAN_MODE_BASIC_BIT (streq buf "basic")))
            MSI_EC_FAN_MODE_ADDRESS
            (ec_write_bit_byte
              (ec_write_bit_byte (regs MSI_EC_FAN_MODE_ADDRESS)
                MSI_EC_FAN_MODE_BASIC_BIT (streq buf "basic"))
              MSI_EC_FAN_MODE_ADVANCED_BIT (streq buf "advanced")))
          MSI_EC_FAN_MODE_ADDRESS
          (ec_write_bit_byte
            (ec_write_bit_byte
              (ec_write_bit_byte (regs MSI_EC_FAN_MODE_ADDRESS)
                MSI_EC_FAN_MODE_BASIC_BIT (streq buf "basic"))
              MSI_EC_FAN_MODE_ADVANCED_BIT (streq buf "advanced"))
            MSI_EC_FAN_MODE_SILENT_BIT (streq buf "silent"))) := by
    simp only [fan_mode_store, hcond, Bool.false_eq_true, if_false,
      updateReg_same]
  refine ⟨by rw [hsucc], ?_, ?_, ?_, streq_modes_exclusive buf, ?_, ?_,
    ?_, ?_, ?_⟩
  · rw [hsucc]
    simp only []
    unfold read_bit
    rw [updateReg_same, is_bit_set_eq_testBit]
    exact testBit_ec_write_bit_byte_self _ _ _ (by decide)
  · rw [hsucc]
    simp only []
    unfold read_bit
    rw [updateReg_same, is_bit_set_eq_testBit]
    rw [testBit_ec_write_bit_byte_other _ _ _ _ (by decide)
      (ec_write_bit_byte_lt _ _ _) (by decide)]
    exact testBit_ec_write_bit_byte_self _ _ _ (by decide)
  · rw [hsucc]
    simp only []
    unfold read_bit
    rw [updateReg_same, is_bit_set_eq_testBit]
    rw [testBit_ec_write_bit_byte_other _ _ _ _ (by decide)
      (ec_write_bit_byte_lt _ _ _) (by decide)]
    rw [testBit_ec_write_bit_byte_other _ _ _ _ (by decide)
      (ec_write_bit_byte_lt _ _ _) (by decide)]
    exact testBit_ec_write_bit_byte_self _ _ _ (by decide)
  · rw [hsucc]
    simp only []
    rw [updateReg_same]
    rw [testBit_ec_write_bit_byte_other _ _ _ _ (by decide)
      (ec_write_bit_byte_lt _ _ _) hj1]
    rw [testBit_ec_write_bit_byte_other _ _ _ _ (by decide)
      (ec_write_bit_byte_lt _ _ _) hj3]
    exact testBit_ec_write_bit_byte_other _ _ _ _ (by decide) h256 hj2
  · rw [hsucc]
    simp only []
    rw [updateReg_other _ _ _ _ ha, updateReg_other _ _ _ _ ha,
      updateReg_other _ _ _ _ ha]
  · simp only [fan_mode_store, hcond, Bool.false_eq_true, if_false,
      if_true]
  · simp only [fan_mode_store, hcond, Bool.false_eq_true, if_false,
      if_true]
  · simp only [fan_mode_store, hcond, Bool.false_eq_true, if_false,
      if_true, updateReg_same]

theorem fan_mode_store_exclusive_witness :
    (fan_mode_store (fun _ => 205) "silent" false false false).fst
      = true ∧
    read_bit (fan_mode_store (fun _ => 205) "silent" false false false).snd
        MSI_EC_FAN_MODE_ADDRESS MSI_EC_FAN_MODE_SILENT_BIT
      = streq "silent" "silent" ∧
    read_bit (fan_mode_store (fun _ => 205) "silent" false false false).snd
        MSI_EC_FAN_MODE_ADDRESS MSI_EC_FAN_MODE_ADVANCED_BIT
      = streq "silent" "advanced" ∧
    read_bit (fan_mode_store (fun _ => 205) "silent" false false false).snd
        MSI_EC_FAN_MODE_ADDRESS MSI_EC_FAN_MODE_BASIC_BIT
      = streq "silent" "basic" ∧
    (streq "silent" "silent").toNat + (streq "silent" "basic").toNat
      + (streq "silent" "advanced").toNat ≤ 1 ∧
    ((fan_mode_store (fun _ => 205) "silent" false false false).snd
        MSI_EC_FAN_MODE_ADDRESS).testBit 0
      = ((205 : Nat)).testBit 0 ∧
    (fan_mode_store (fun _ => 205) "silent" false false false).snd 0
      = 205 ∧
    fan_mode_store (fun _ => 205) "silent" true false false
      = (false, fun _ => 205) ∧
    fan_mode_store (fun _ => 205) "silent" false true false
      = (false, updateReg (fun _ => 205) MSI_EC_FAN_MODE_ADDRESS
          (ec_write_bit_byte 205 MSI_EC_FAN_MODE_BASIC_BIT
            (streq "silent" "basic"))) ∧
    fan_mode_store (fun _ => 205) "silent" false false true
      = (false, updateReg
          (updateReg (fun _ => 205) MSI_EC_FAN_MODE_ADDRESS
            (ec_write_bit_byte 205 MSI_EC_FAN_MODE_BASIC_BIT
              (streq "silent" "basic")))
          MSI_EC_FAN_MODE_ADDRESS
          (ec_write_bit_byte
            (ec_write_bit_byte 205 MSI_EC_FAN_MODE_BASIC_BIT
              (streq "silent" "basic"))
            MSI_EC_FAN_MODE_ADVANCED_BIT (streq "silent" "advanced"))) :=
  fan_mode_store_exclusive (fun _ => 205) "silent" 0 0 false false
    (by decide) (by decide) (by decide) (by decide) (by decide) (by decide)

/-- Claim C6, counterexample: with a malformed fixed-width date text (the
first character is not a digit, so `sscanf` assigns no field), the
firmware release-date operation does not return a distinct
malformed-data error — it still returns a formatted result, built from
the prior contents of the output variables (here 0). -/
theorem fw_release_date_show_malformed_no_error :
    fw_release_date_show (some "A9152023".data) (some "14:30:05".data)
      0 0 0 0 0 0 = some "0000/00/00 14:30:05" := by
  decide

/-- Claim C6 as amended: parse failures are not detected — the `sscanf`
results are unchecked, so for every date and time text delivered by the
transport the operation returns a formatted string (fields that failed to
parse keep the prior, indeterminate contents of their variables), and
only a transport read failure makes the operation fail; the well-formed
raw date bytes "09152023" and time bytes "14:30:05" decode to
"2023/09/15 14:30:05" whatever the prior variable contents were. -/
theorem fw_release_date_show_spec (d t : List Char)
    (m0 d0 y0 h0 mi0 s0 : Nat) :
    fw_release_date_show (some "09152023".data) (some "14:30:05".data)
      m0 d0 y0 h0 mi0 s0 = some "2023/09/15 14:30:05" ∧
    (fw_release_date_show (some d) (some t)
      m0 d0 y0 h0 mi0 s0).isSome = true ∧
    fw_release_date_show none (some t) m0 d0 y0 h0 mi0 s0 = none ∧
    fw_release_date_show (some d) none m0 d0 y0 h0 mi0 s0 = none := by
  refine ⟨?_, rfl, rfl, rfl⟩
  have hd : sscanf_date ['0', '9', '1', '5', '2', '0', '2', '3']
      = (some 9, some 15, some 2023) := by decide
  have ht : sscanf_time ['1', '4', ':', '3', '0', ':', '0', '5']
      = (some 14, some 30, some 5) := by decide
  show some _ = _
  rw [show "09152023".data = ['0', '9', '1', '5', '2', '0', '2', '3']
    from rfl]
  rw [show "14:30:05".data = ['1', '4', ':', '3', '0', ':', '0', '5']
    from rfl]
  rw [hd, ht]
  simp only [Option.getD_some]
  decide

/-- Claim C1, counterexample: applying the "balanced" preset does change
the byte at the keyboard-backlight column's address — the column write
loop of `preset_store` writes every column, the keyboard-backlight one
included, so from the all-zero register state the byte at that address is
no longer its pre-existing value 0 afterwards. -/
theorem preset_store_kbd_not_preserved :
    (preset_store specTables (fun _ => 0) "balanced" (fun _ => false)
        false false).snd (specTables.mem.getD specTables.kbdCol 0)
      ≠ 0 := by
  decide

/-- Claim C1 as amended: for every initial register state, a successful
`preset_store` of "balanced" (all writes succeeding) writes the
keyboard-backlight column like any other column — the byte at its address
ends up equal to the balanced row's stored keyboard-backlight byte, not
its pre-existing value — and classifying immediately afterwards with
`preset_show` yields "balanced". -/
theorem preset_store_balanced_roundtrip (regs : Regs) :
    (preset_store specTables regs "balanced" (fun _ => false)
        false false).snd (specTables.mem.getD specTables.kbdCol 0)
      = (specTables.val.getD MSI_EC_PRESET_BALANCED []).getD
          specTables.kbdCol 0 ∧
    preset_show specTables
      (preset_store specTables regs "balanced" (fun _ => false)
        false false).snd (fun _ _ => false) = "balanced" := by
  constructor
  · exact preset_store_snd_col specTables regs "balanced" (fun _ => false)
      false false 2 1 (by decide) (by decide) (by decide) (by decide)
      (by decide) (by decide)
  · have hR2 : (preset_store specTables regs "balanced" (fun _ => false)
        false false).snd 0xd2 = 0xc1 :=
      preset_store_snd_col specTables regs "balanced" (fun _ => false)
        false false 2 0 (by decide) (by decide) (by decide) (by decide)
        (by decide) (by decide)
    have hRe : (preset_store specTables regs "balanced" (fun _ => false)
        false false).snd 0xeb = 0 :=
      preset_store_snd_col specTables regs "balanced" (fun _ => false)
        false false 2 3 (by decide) (by decide) (by decide) (by decide)
        (by decide) (by decide)
    have hRF : (preset_store specTables regs "balanced" (fun _ => false)
        false false).snd MSI_EC_FAN_MODE_ADDRESS
        = ec_write_bit_byte
            (ec_write_bit_byte
              (ec_write_bit_byte (regs MSI_EC_FAN_MODE_ADDRESS)
                MSI_EC_FAN_MODE_SILENT_BIT false)
              MSI_EC_FAN_MODE_ADVANCED_BIT false)
            MSI_EC_FAN_MODE_BASIC_BIT false := rfl
    have hsil2 : is_bit_set MSI_EC_FAN_MODE_SILENT_BIT
        ((preset_store specTables regs "balanced" (fun _ => false)
          false false).snd MSI_EC_FAN_MODE_ADDRESS) = false := by
      rw [hRF, is_bit_set_eq_testBit]
      rw [testBit_ec_write_bit_byte_other _ _ _ _ (by decide)
        (ec_write_bit_byte_lt _ _ _) (by decide)]
      rw [testBit_ec_write_bit_byte_other _ _ _ _ (by decide)
        (ec_write_bit_byte_lt _ _ _) (by decide)]
      exact testBit_ec_write_bit_byte_self _ _ _ (by decide)
    generalize hgen : (preset_store specTables regs "balanced"
      (fun _ => false) false false).snd = R at hR2 hRe hsil2 ⊢
    have hm0 : matchFrom specTables R (fun _ _ => false) 0 0 = false := by
      rw [matchFrom_step _ _ _ _ _ (by decide)]
      have hcm : colMatches specTables R 0 0 = false := by
        unfold colMatches
        rw [if_neg (by decide), if_neg (by decide)]
        show ((0xc2 : Nat) == R 0xd2) = false
        rw [hR2]
        decide
      rw [hcm]
      simp
    have hm1 : matchFrom specTables R (fun _ _ => false) 1 0 = false := by
      rw [matchFrom_step _ _ _ _ _ (by decide),
        matchFrom_step _ _ _ _ _ (by decide),
        matchFrom_step _ _ _ _ _ (by decide)]
      have hcm : colMatches specTables R 1 (0 + 1 + 1) = false := by
        unfold colMatches
        rw [if_neg (by decide), if_pos (by decide)]
        show ((1 : Nat)
          == if is_bit_set MSI_EC_FAN_MODE_SILENT_BIT
               (R MSI_EC_FAN_MODE_ADDRESS) then 1 else 0) = false
        rw [hsil2]
        decide
      rw [hcm]
      simp
    have hm2 : matchFrom specTables R (fun _ _ => false) 2 0 = true := by
      rw [matchFrom_step _ _ _ _ _ (by decide),
        matchFrom_step _ _ _ _ _ (by decide),
        matchFrom_step _ _ _ _ _ (by decide),
        matchFrom_step _ _ _ _ _ (by decide),
        matchFrom_last _ _ _ _ _ (by decide)]
      have hc0 : colMatches specTables R 2 0 = true := by
        unfold colMatches
        rw [if_neg (by decide), if_neg (by decide)]
        show ((0xc1 : Nat) == R 0xd2) = true
        rw [hR2]
        decide
      have hc1 : colMatches specTables R 2 (0 + 1) = true := by
        unfold colMatches
        rw [if_pos (by decide)]
      have hc2 : colMatches specTables R 2 (0 + 1 + 1) = true := by
        unfold colMatches
        rw [if_neg (by decide), if_pos (by decide)]
        show ((0 : Nat)
          == if is_bit_set MSI_EC_FAN_MODE_SILENT_BIT
               (R MSI_EC_FAN_MODE_ADDRESS) then 1 else 0) = true
        rw [hsil2]
        decide
      have hc3 : colMatches specTables R 2 (0 + 1 + 1 + 1) = true := by
        unfold colMatches
        rw [if_neg (by decide), if_neg (by decide)]
        show ((0 : Nat) == R 0xeb) = true
        rw [hRe]
        decide
      rw [hc0, hc1, hc2, hc3]
      simp
    exact preset_show_first_match specTables R (fun _ _ => false) 2
      (by decide) (by decide) hm2
      (by
        intro w hw
        interval_cases w
        · exact hm0
        · exact hm1)
